import Mathlib

/-!
Verification development for the `advanced_traffic_analyzer.py` web-log
analyzer.  The Python source is shallowly embedded: Python unbounded `int`
becomes `Int`, Python `None`-able parameters become `Option`, Python
`collections.Counter` (an insertion-ordered dict from keys to counts)
becomes an insertion-ordered association list `List (K × Nat)`, the
`unique_ips` `set` becomes a `Finset String`, and Python `float`
arithmetic in the report formatter is modelled by exact rationals `ℚ`
(exact for the byte/percentage magnitudes the claims exercise, since
division by powers of two and the concrete sample values are exactly
representable).  Python truthiness tests (`if args.start and ...`,
`if cutoff and ...`) are embedded literally: `None` and `0` are falsy
for integers, `None` and `""` for strings, and a present tuple is
always truthy.
-/

/-- Python ASCII whitespace as used by `str.split()` (the source log lines
are ASCII; unicode whitespace is out of scope). -/
def isSpace (c : Char) : Bool :=
  c = ' ' || c = '\t' || c = '\n' || c = '\r' || c = '\x0b' || c = '\x0c'

/-- Character-level worker for `pySplit`: `cur` holds the reversed
characters of the token being read. -/
def splitWsAux : List Char → List Char → List String
  | [], cur => if cur = [] then [] else [String.mk cur.reverse]
  | c :: rest, cur =>
      if isSpace c then
        if cur = [] then splitWsAux rest []
        else String.mk cur.reverse :: splitWsAux rest []
      else splitWsAux rest (c :: cur)

/-- `line.strip().split()` from `parse_log_line`: split on runs of
whitespace, dropping empty pieces (which also subsumes the `strip`). -/
def pySplit (line : String) : List String :=
  splitWsAux line.toList []

/-- Python `str.upper()` for the ASCII tokens of this log format. -/
def pyUpper (s : String) : String :=
  String.mk (s.toList.map Char.toUpper)

/-- Accumulating decimal-digit scanner for `pyInt`. -/
def parseDigits : List Char → Nat → Option Nat
  | [], acc => some acc
  | c :: rest, acc =>
      if c.isDigit then parseDigits rest (acc * 10 + (c.toNat - 48)) else none

/-- Python `int(token)` on a whitespace-free token: an optional single
sign followed by a nonempty run of decimal digits; anything else raises
`ValueError`, modelled as `none`.  (CPython also accepts underscore
digit separators and non-ASCII digits; log tokens of this program are
plain ASCII numerals, so those exotics are out of scope.) -/
def pyInt (s : String) : Option Int :=
  match s.toList with
  | [] => none
  | '+' :: rest =>
      if rest = [] then none else (parseDigits rest 0).map (fun n => (n : Int))
  | '-' :: rest =>
      if rest = [] then none else (parseDigits rest 0).map (fun n => -(n : Int))
  | cs => (parseDigits cs 0).map (fun n => (n : Int))

/-- One parsed log record, the 6-tuple built by `parse_log_line`. -/
structure LogRecord where
  timestamp : Int
  client_ip : String
  method : String
  url : String
  status : Int
  size : Int
deriving DecidableEq, Repr

/-- `parse_log_line`: exactly six whitespace-separated tokens; fields
1/5/6 must parse as integers; the method token is uppercased; any
failure yields `none` (Python catches the `ValueError` and returns
`None` — it never propagates an exception). -/
def parse_log_line (line : String) : Option LogRecord :=
  match pySplit line with
  | [p0, p1, p2, p3, p4, p5] =>
      match pyInt p0, pyInt p4, pyInt p5 with
      | some ts, some status, some size =>
          some ⟨ts, p1, pyUpper p2, p3, status, size⟩
      | _, _, _ => none
  | _ => none

/-- The relevant fields of the validated CLI `args` object: `method`
(`None` or a string), `status_filter` (`None` or an inclusive pair),
`start`/`end` (`None` or an integer timestamp) and `top`. -/
structure Args where
  method : Option String
  status_filter : Option (Int × Int)
  start : Option Int
  end' : Option Int
  top : Int
deriving DecidableEq, Repr

/-- Python truthiness of an optional integer: `None` and `0` are falsy. -/
def truthyOptInt : Option Int → Bool
  | none => false
  | some v => v ≠ 0

/-- Python truthiness of an optional string: `None` and `""` are falsy. -/
def truthyOptStr : Option String → Bool
  | none => false
  | some s => s ≠ ""

/-- `matches_filters`, with each guard embedding the source's truthiness
test verbatim: `if args.method and method != args.method`,
`if args.status_filter` (a present tuple is always truthy),
`if args.start and timestamp < args.start`,
`if args.end and timestamp > args.end`. -/
def matches_filters (record : LogRecord) (args : Args) : Bool :=
  if truthyOptStr args.method && (record.method ≠ args.method.getD "") then false
  else if (match args.status_filter with
           | some (low, high) => !(low ≤ record.status && record.status ≤ high)
           | none => false) then false
  else if truthyOptInt args.start && (record.timestamp < args.start.getD 0) then false
  else if truthyOptInt args.end' && (record.timestamp > args.end'.getD 0) then false
  else true

/-- Insertion-ordered counter, the model of `collections.Counter`: keys
in first-insertion order, each paired with its count. -/
abbrev Counter (K : Type) : Type := List (K × Nat)

/-- `counter[k] += 1`: bump an existing key in place, or append a new
key with count 1 (Python dicts append new keys at the end). -/
def Counter.incr {K : Type} [DecidableEq K] : Counter K → K → Counter K
  | [], k => [(k, 1)]
  | (k', n) :: rest, k =>
      if k = k' then (k', n + 1) :: rest else (k', n) :: Counter.incr rest k

/-- `counter.get(k, 0)` / `counter[k]` for reading: the stored count or 0. -/
def Counter.get {K : Type} [DecidableEq K] : Counter K → K → Nat
  | [], _ => 0
  | (k', n) :: rest, k => if k = k' then n else Counter.get rest k

/-- Number of distinct keys, Python `len(counter)`. -/
def Counter.numKeys {K : Type} (c : Counter K) : Nat := c.length

/-- The `TrafficAnalyzer` aggregator state. -/
structure TrafficAnalyzer where
  top_n : Int
  total_requests : Nat
  unique_ips : Finset String
  total_data : Int
  ip_counter : Counter String
  url_counter : Counter String
  method_counter : Counter String
  success_count : Nat
  client_error_count : Nat
  server_error_count : Nat
  success_size_sum : Int
  recent_ip_counts : Counter String
  requests_per_hour : Counter Int

/-- `TrafficAnalyzer.__init__`. -/
def TrafficAnalyzer.init (top_n : Int) : TrafficAnalyzer :=
  { top_n := top_n, total_requests := 0, unique_ips := ∅, total_data := 0,
    ip_counter := [], url_counter := [], method_counter := [],
    success_count := 0, client_error_count := 0, server_error_count := 0,
    success_size_sum := 0, recent_ip_counts := [], requests_per_hour := [] }

/-- The unconditional first block of `process_record` (lines 121-126). -/
def baseUpdate (a : TrafficAnalyzer) (r : LogRecord) : TrafficAnalyzer :=
  { a with
    total_requests := a.total_requests + 1,
    unique_ips := insert r.client_ip a.unique_ips,
    total_data := a.total_data + r.size,
    ip_counter := Counter.incr a.ip_counter r.client_ip,
    url_counter := Counter.incr a.url_counter r.url,
    method_counter := Counter.incr a.method_counter r.method }

/-- Python `200 <= status < 300`. -/
def is2xx (r : LogRecord) : Bool := 200 ≤ r.status && r.status < 300

/-- Python `400 <= status < 500`. -/
def is4xx (r : LogRecord) : Bool := 400 ≤ r.status && r.status < 500

/-- Python `500 <= status < 600`. -/
def is5xx (r : LogRecord) : Bool := 500 ≤ r.status && r.status < 600

/-- Status in one of the three counted classes. -/
def isBucketed (r : LogRecord) : Bool := is2xx r || is4xx r || is5xx r

/-- The status `if/elif` chain of `process_record` (lines 127-133). -/
def statusUpdate (a : TrafficAnalyzer) (r : LogRecord) : TrafficAnalyzer :=
  if is2xx r then
    { a with success_count := a.success_count + 1,
             success_size_sum := a.success_size_sum + r.size }
  else if is4xx r then
    { a with client_error_count := a.client_error_count + 1 }
  else if is5xx r then
    { a with server_error_count := a.server_error_count + 1 }
  else a

/-- The recent-window block of `process_record` (lines 134-138).  Note
the source's indentation: `recent_ip_counts[ip] += 1` sits under
`if cutoff and timestamp >= cutoff`, NOT under the inner
`0 <= hour_index < 24` test, and the outer guard is Python truthiness
(`cutoff` equal to `None` *or to the integer 0* skips the block).
`//` is Python floor division, `Int.fdiv`. -/
def recentUpdate (a : TrafficAnalyzer) (r : LogRecord) (cutoff : Option Int) :
    TrafficAnalyzer :=
  if truthyOptInt cutoff ∧ cutoff.getD 0 ≤ r.timestamp then
    let hour_index := (r.timestamp - cutoff.getD 0).fdiv 3600
    let a' :=
      if 0 ≤ hour_index ∧ hour_index < 24 then
        { a with requests_per_hour := Counter.incr a.requests_per_hour hour_index }
      else a
    { a' with recent_ip_counts := Counter.incr a'.recent_ip_counts r.client_ip }
  else a

/-- `TrafficAnalyzer.process_record`: the three source blocks in order. -/
def TrafficAnalyzer.process_record (a : TrafficAnalyzer) (r : LogRecord)
    (cutoff : Option Int) : TrafficAnalyzer :=
  recentUpdate (statusUpdate (baseUpdate a r) r) r cutoff

/-- Fold a list of already-parsed, already-filtered records through
`process_record`. -/
def processRecords (records : List LogRecord) (cutoff : Option Int)
    (a : TrafficAnalyzer) : TrafficAnalyzer :=
  records.foldl (fun s r => TrafficAnalyzer.process_record s r cutoff) a

/-- The records of a line stream that parse and pass the filters — the
exact stream `process_file` feeds to `process_record`. -/
def matchingRecords (lines : List String) (args : Args) : List LogRecord :=
  (lines.filterMap parse_log_line).filter (fun r => matches_filters r args)

/-- One step of `find_max_timestamp`'s running maximum:
`if max_ts is None or ts > max_ts: max_ts = ts`. -/
def maxUpd (acc : Option Int) (ts : Int) : Option Int :=
  match acc with
  | none => some ts
  | some m => if ts > m then some ts else some m

/-- `find_max_timestamp`: scan all lines, track the maximum timestamp
among records that parse (`if parsed` — a 6-tuple is always truthy) and
match the filters. -/
def find_max_timestamp (lines : List String) (args : Args) : Option Int :=
  lines.foldl
    (fun max_ts line =>
      match parse_log_line line with
      | some parsed =>
          if matches_filters parsed args then maxUpd max_ts parsed.timestamp
          else max_ts
      | none => max_ts)
    none

/-- `process_file`: fresh analyzer, feed every parsing+matching line
(malformed lines emit a warning and are skipped). -/
def process_file (lines : List String) (args : Args) (cutoff : Option Int) :
    TrafficAnalyzer :=
  lines.foldl
    (fun analyzer line =>
      match parse_log_line line with
      | none => analyzer
      | some parsed =>
          if matches_filters parsed args then
            TrafficAnalyzer.process_record analyzer parsed cutoff
          else analyzer)
    (TrafficAnalyzer.init args.top)

/-- Exactly `w` decimal digits of `n` (most significant first),
zero-padded on the left; `n < 10 ^ w` in every use. -/
def padDigits : Nat → Nat → List Char
  | 0, _ => []
  | w + 1, n => padDigits w (n / 10) ++ [Nat.digitChar (n % 10)]

/-- Python `f"{x:.{prec}f}"` for the exact fraction `num / den`
(`den > 0` at every use): scale by `10 ^ prec`, round half-to-even (the
rounding of CPython float formatting; the session's float values are
exact dyadic rationals, so the fraction model is exact), and print with
exactly `prec` digits after the decimal point. -/
def formatFixedFrac (num den : Int) (prec : Nat) : String :=
  let scaledNum := num * 10 ^ prec
  let f := scaledNum.fdiv den
  let r2 := 2 * (scaledNum - f * den)
  let scaled := if r2 < den then f
                else if den < r2 then f + 1
                else if f % 2 = 0 then f else f + 1
  let sign := if scaled < 0 then "-" else ""
  let n := scaled.natAbs
  sign ++ toString (n / 10 ^ prec) ++ "." ++ String.mk (padDigits prec (n % 10 ^ prec))

/-- The unit loop of `human_readable_bytes`:
`if num < 1024 or unit == "TB": return f"{num:.2f} {unit}"` else divide
by 1024 and move to the next unit.  The running Python float is the
exact dyadic value `num / 1024 ^ k` (dividing a float by the power of
two 1024 only shifts its exponent), carried here as the pair
`(num, k)`.  The empty-list case is unreachable (the loop always
returns at `"TB"`). -/
def human_readable_bytes_aux : List String → Int → Nat → String
  | [], _, _ => ""
  | unit :: rest, num, k =>
      if num < 1024 ^ (k + 1) ∨ unit = "TB" then
        formatFixedFrac num (1024 ^ k) 2 ++ " " ++ unit
      else human_readable_bytes_aux rest num (k + 1)

/-- `human_readable_bytes`. -/
def human_readable_bytes (num : Int) : String :=
  human_readable_bytes_aux ["B", "KB", "MB", "GB", "TB"] num 0

/-- Insert an element into a count-descending list, after every element
with a strictly larger count and before the first with a smaller-or-equal
one — the stable descending order produced by Python's stable
`sorted(..., key=lambda x: x[1], reverse=True)`. -/
def insertDesc {α : Type} (x : α × Nat) : List (α × Nat) → List (α × Nat)
  | [] => [x]
  | y :: ys => if x.2 < y.2 then y :: insertDesc x ys else x :: y :: ys

/-- Stable sort by count descending:
`sorted(counter.items(), key=lambda x: x[1], reverse=True)`. -/
def sortByCountDesc {α : Type} (l : List (α × Nat)) : List (α × Nat) :=
  l.foldr insertDesc []

/-- `Counter.most_common(n)`: documented by CPython as equivalent to
`sorted(iterable, key, reverse=True)[:n]` (and `heapq.nlargest` breaks
ties by original position, so the equivalence includes tie order). -/
def most_common {α : Type} (c : Counter α) (n : Nat) : List (α × Nat) :=
  (sortByCountDesc c).take n

/-- Civil date from days since the Unix epoch (proleptic Gregorian),
the arithmetic underlying `datetime.fromtimestamp(ts, tz=timezone.utc)`. -/
def civilFromDays (z0 : Int) : Int × Int × Int :=
  let z := z0 + 719468
  let era := z.fdiv 146097
  let doe := z - era * 146097
  let yoe := (doe - doe.fdiv 1460 + doe.fdiv 36524 - doe.fdiv 146096).fdiv 365
  let doy := doe - (365 * yoe + yoe.fdiv 4 - yoe.fdiv 100)
  let mp := (5 * doy + 2).fdiv 153
  let d := doy - (153 * mp + 2).fdiv 5 + 1
  let m := mp + (if mp < 10 then 3 else -9)
  (yoe + era * 400 + (if m ≤ 2 then 1 else 0), m, d)

/-- `datetime.fromtimestamp(ts, tz=utc).replace(minute=0, second=0,
microsecond=0).strftime("%Y-%m-%dT%H:%MZ")`: the UTC hour-truncated
ISO stamp of the hour-bucket label (minutes forced to `00`). -/
def formatHourUTC (ts : Int) : String :=
  let days := ts.fdiv 86400
  let secs := (ts - days * 86400).toNat
  let hour := secs / 3600
  match civilFromDays days with
  | (y, m, d) =>
      String.mk (padDigits 4 y.toNat) ++ "-" ++ String.mk (padDigits 2 m.toNat) ++
        "-" ++ String.mk (padDigits 2 d.toNat) ++ "T" ++
        String.mk (padDigits 2 hour) ++ ":00Z"

/-- The time-range echo line: Python tests `args.start is None and
args.end is None` (an `is None` test, not truthiness). -/
def timeRangeLine (args : Args) : String :=
  match args.start, args.end' with
  | none, none => "- Time range: all time"
  | s, e =>
      "- Time range: " ++
        (match s with | some v => toString v | none => "none") ++ " - " ++
        (match e with | some v => toString v | none => "none")

/-- The method echo line: `args.method if args.method else 'all methods'`
(truthiness: `None` and `""` both print `all methods`). -/
def methodEchoLine (args : Args) : String :=
  "- Method filter: " ++
    (match args.method with
     | some m => if m = "" then "all methods" else m
     | none => "all methods")

/-- The status echo line: a present pair is always truthy. -/
def statusEchoLine (args : Args) : String :=
  match args.status_filter with
  | some (low, high) =>
      if low ≠ high then "- Status filter: " ++ toString low ++ "-" ++ toString high
      else "- Status filter: " ++ toString low
  | none => "- Status filter: all statuses"

/-- `TrafficAnalyzer.generate_report` as the list of lines later joined
with `"\n"`.  Mirrors the source section by section; `args.top` is used
both in the `Top {args.top}` header and as the `most_common` argument
(Python `nlargest` with a non-positive `n` returns `[]`, matching
`Int.toNat`). -/
def generate_report (a : TrafficAnalyzer) (args : Args) (cutoff : Option Int) :
    List String :=
  ["====== TRAFFIC ANALYSIS REPORT ======\n",
   "Filter settings:",
   timeRangeLine args, methodEchoLine args, statusEchoLine args, "",
   "Basic statistics:",
   "Total requests: " ++ toString a.total_requests,
   "Unique IPs: " ++ toString a.unique_ips.card,
   "Total data transferred: " ++ toString a.total_data ++ " (" ++
     human_readable_bytes a.total_data ++ ")",
   "",
   "Request distribution:"]
  ++ (if a.total_requests = 0 then ["(no data)"]
      else (sortByCountDesc a.method_counter).map (fun p =>
        "- " ++ p.1 ++ ": " ++
          formatFixedFrac ((p.2 : Int) * 100) (a.total_requests : Int) 1 ++ "%"))
  ++ ["",
      "Performance metrics:",
      "- Successful requests (2xx): " ++ toString a.success_count,
      "- Client errors (4xx): " ++ toString a.client_error_count,
      "- Server errors (5xx): " ++ toString a.server_error_count,
      "- Average response size (2xx): " ++
        (if a.success_count ≠ 0 then
          formatFixedFrac a.success_size_sum (a.success_count : Int) 2
         else formatFixedFrac 0 1 2) ++ " bytes",
      "",
      "Top " ++ toString args.top ++ " active IPs:"]
  ++ (let top_ips := most_common a.ip_counter args.top.toNat
      if top_ips = [] then ["(no data)"]
      else (top_ips.enumFrom 1).map (fun p =>
        toString p.1 ++ ". " ++ p.2.1 ++ ": " ++ toString p.2.2 ++ " requests"))
  ++ ["",
      "Top 5 requested URLs:"]
  ++ (let top_urls := most_common a.url_counter 5
      if top_urls = [] then ["(no data)"]
      else (top_urls.enumFrom 1).map (fun p =>
        toString p.1 ++ ". " ++ p.2.1 ++ ": " ++ toString p.2.2))
  ++ ["",
      "Recent activity (last 24h):"]
  ++ (match cutoff with
      | none => ["- Unique IPs: 0", "- Requests per hour (last 24h): []"]
      | some c =>
          ["- Unique IPs: " ++ toString (Counter.numKeys a.recent_ip_counts),
           "- Requests per hour (last 24h): " ++ String.intercalate ", "
             (((List.range 24).map (fun h =>
               "[" ++ formatHourUTC (c + h * 3600) ++ ": " ++
                 toString (Counter.get a.requests_per_hour h) ++ "]")))])

/-- `main` after argument validation: the two-pass driver.  Returns the
report (as its list of lines) and the process exit status — `sys.exit(0)`
on the no-match short-circuit, implicit 0 otherwise. -/
def run (lines : List String) (args : Args) : List String × Nat :=
  match find_max_timestamp lines args with
  | none => (generate_report (TrafficAnalyzer.init args.top) args none, 0)
  | some max_ts =>
      let cutoff := max_ts - 86400
      (generate_report (process_file lines args (some cutoff)) args (some cutoff), 0)

/-- The scan-phase fold step of `find_max_timestamp`, named for the
commutativity lemma. -/
def findMaxStep (args : Args) (max_ts : Option Int) (line : String) : Option Int :=
  match parse_log_line line with
  | some parsed =>
      if matches_filters parsed args then maxUpd max_ts parsed.timestamp
      else max_ts
  | none => max_ts

/-- Observational equality of aggregator states: all scalar counters,
the unique-IP set, and each frequency mapping as a key-to-count
function. -/
def AggObsEq (a b : TrafficAnalyzer) : Prop :=
  a.top_n = b.top_n ∧
  a.total_requests = b.total_requests ∧
  a.total_data = b.total_data ∧
  a.success_count = b.success_count ∧
  a.client_error_count = b.client_error_count ∧
  a.server_error_count = b.server_error_count ∧
  a.success_size_sum = b.success_size_sum ∧
  a.unique_ips = b.unique_ips ∧
  (∀ k, Counter.get a.ip_counter k = Counter.get b.ip_counter k) ∧
  (∀ k, Counter.get a.url_counter k = Counter.get b.url_counter k) ∧
  (∀ k, Counter.get a.method_counter k = Counter.get b.method_counter k) ∧
  (∀ k, Counter.get a.recent_ip_counts k = Counter.get b.recent_ip_counts k) ∧
  (∀ h : Int, Counter.get a.requests_per_hour h = Counter.get b.requests_per_hour h)

/-- Append a key if unseen — how an insertion-ordered dict grows its key
list. -/
def addFirstSeen {α : Type} [DecidableEq α] (acc : List α) (k : α) : List α :=
  if k ∈ acc then acc else acc ++ [k]

/-! ### Counter lemmas -/

theorem Counter.get_incr {K : Type} [DecidableEq K] (c : Counter K) (k k' : K) :
    Counter.get (Counter.incr c k) k' =
      Counter.get c k' + (if k' = k then 1 else 0) := by
  induction c with
  | nil => by_cases h : k' = k <;> simp [Counter.incr, Counter.get, h]
  | cons p rest ih =>
    obtain ⟨k0, n⟩ := p
    by_cases hk : k = k0
    · subst hk
      simp [Counter.incr, Counter.get]
      split_ifs with h1 <;> simp_all [Counter.get]
    · simp [Counter.incr, hk, Counter.get]
      by_cases h1 : k' = k0
      · subst h1; simp [hk, Counter.get, Ne.symm hk]
      · simp [h1, Counter.get, ih]

theorem Counter.sum_incr {K : Type} [DecidableEq K] (c : Counter K) (k : K) :
    ((Counter.incr c k).map Prod.snd).sum = (c.map Prod.snd).sum + 1 := by
  induction c with
  | nil => simp [Counter.incr]
  | cons p rest ih =>
    obtain ⟨k0, n⟩ := p
    by_cases hk : k = k0
    · subst hk; simp [Counter.incr]; omega
    · simp [Counter.incr, hk, ih]; omega

theorem Counter.keys_incr {K : Type} [DecidableEq K] (c : Counter K) (k : K) :
    (Counter.incr c k).map Prod.fst =
      if k ∈ c.map Prod.fst then c.map Prod.fst else c.map Prod.fst ++ [k] := by
  induction c with
  | nil => simp [Counter.incr]
  | cons p rest ih =>
    obtain ⟨k0, n⟩ := p
    by_cases hk : k = k0
    · subst hk; simp [Counter.incr]
    · simp only [Counter.incr, if_neg hk, List.map_cons, ih]
      by_cases h1 : k ∈ rest.map Prod.fst <;>
        simp [h1, List.mem_cons, hk]

/-! ### Field-level behaviour of one `process_record` step -/

theorem pr_top (a : TrafficAnalyzer) (r : LogRecord) (c : Option Int) :
    (a.process_record r c).top_n = a.top_n := by
  simp only [TrafficAnalyzer.process_record, recentUpdate, statusUpdate, baseUpdate]
  split_ifs <;> rfl

theorem pr_total (a : TrafficAnalyzer) (r : LogRecord) (c : Option Int) :
    (a.process_record r c).total_requests = a.total_requests + 1 := by
  simp only [TrafficAnalyzer.process_record, recentUpdate, statusUpdate, baseUpdate]
  split_ifs <;> rfl

theorem pr_data (a : TrafficAnalyzer) (r : LogRecord) (c : Option Int) :
    (a.process_record r c).total_data = a.total_data + r.size := by
  simp only [TrafficAnalyzer.process_record, recentUpdate, statusUpdate, baseUpdate]
  split_ifs <;> rfl

theorem pr_unique (a : TrafficAnalyzer) (r : LogRecord) (c : Option Int) :
    (a.process_record r c).unique_ips = insert r.client_ip a.unique_ips := by
  simp only [TrafficAnalyzer.process_record, recentUpdate, statusUpdate, baseUpdate]
  split_ifs <;> rfl

theorem pr_ip (a : TrafficAnalyzer) (r : LogRecord) (c : Option Int) :
    (a.process_record r c).ip_counter = Counter.incr a.ip_counter r.client_ip := by
  simp only [TrafficAnalyzer.process_record, recentUpdate, statusUpdate, baseUpdate]
  split_ifs <;> rfl

theorem pr_url (a : TrafficAnalyzer) (r : LogRecord) (c : Option Int) :
    (a.process_record r c).url_counter = Counter.incr a.url_counter r.url := by
  simp only [TrafficAnalyzer.process_record, recentUpdate, statusUpdate, baseUpdate]
  split_ifs <;> rfl

theorem pr_method (a : TrafficAnalyzer) (r : LogRecord) (c : Option Int) :
    (a.process_record r c).method_counter = Counter.incr a.method_counter r.method := by
  simp only [TrafficAnalyzer.process_record, recentUpdate, statusUpdate, baseUpdate]
  split_ifs <;> rfl

theorem pr_success (a : TrafficAnalyzer) (r : LogRecord) (c : Option Int) :
    (a.process_record r c).success_count =
      a.success_count + (if is2xx r then 1 else 0) := by
  simp only [TrafficAnalyzer.process_record, recentUpdate, statusUpdate, baseUpdate]
  split_ifs <;> simp

theorem pr_sss (a : TrafficAnalyzer) (r : LogRecord) (c : Option Int) :
    (a.process_record r c).success_size_sum =
      a.success_size_sum + (if is2xx r then r.size else 0) := by
  simp only [TrafficAnalyzer.process_record, recentUpdate, statusUpdate, baseUpdate]
  split_ifs <;> simp

theorem pr_client (a : TrafficAnalyzer) (r : LogRecord) (c : Option Int) :
    (a.process_record r c).client_error_count =
      a.client_error_count + (if is4xx r then 1 else 0) := by
  simp only [TrafficAnalyzer.process_record, recentUpdate, statusUpdate, baseUpdate]
  split_ifs <;> simp_all [is2xx, is4xx] <;> omega

theorem pr_server (a : TrafficAnalyzer) (r : LogRecord) (c : Option Int) :
    (a.process_record r c).server_error_count =
      a.server_error_count + (if is5xx r then 1 else 0) := by
  simp only [TrafficAnalyzer.process_record, recentUpdate, statusUpdate, baseUpdate]
  split_ifs <;> simp_all [is2xx, is4xx, is5xx] <;> omega

theorem pr_recent_get (a : TrafficAnalyzer) (r : LogRecord) (c : Option Int)
    (k : String) :
    Counter.get (a.process_record r c).recent_ip_counts k =
      Counter.get a.recent_ip_counts k +
        (if truthyOptInt c ∧ c.getD 0 ≤ r.timestamp ∧ k = r.client_ip
         then 1 else 0) := by
  simp only [TrafficAnalyzer.process_record, recentUpdate, statusUpdate, baseUpdate]
  split_ifs <;> simp_all [Counter.get_incr]

theorem pr_hour_get (a : TrafficAnalyzer) (r : LogRecord) (c : Option Int)
    (h : Int) :
    Counter.get (a.process_record r c).requests_per_hour h =
      Counter.get a.requests_per_hour h +
        (if truthyOptInt c ∧ c.getD 0 ≤ r.timestamp ∧
            0 ≤ (r.timestamp - c.getD 0).fdiv 3600 ∧
            (r.timestamp - c.getD 0).fdiv 3600 < 24 ∧
            h = (r.timestamp - c.getD 0).fdiv 3600
         then 1 else 0) := by
  simp only [TrafficAnalyzer.process_record, recentUpdate, statusUpdate, baseUpdate]
  split_ifs <;> simp_all [Counter.get_incr]

/-! ### Closed forms for a whole pass of `process_record` -/

theorem processRecords_nil (c : Option Int) (a : TrafficAnalyzer) :
    processRecords [] c a = a := rfl

theorem processRecords_cons (r : LogRecord) (rs : List LogRecord) (c : Option Int)
    (a : TrafficAnalyzer) :
    processRecords (r :: rs) c a = processRecords rs c (a.process_record r c) := rfl

theorem processRecords_top (rs : List LogRecord) (c : Option Int)
    (a : TrafficAnalyzer) : (processRecords rs c a).top_n = a.top_n := by
  induction rs generalizing a with
  | nil => rfl
  | cons r rs ih => rw [processRecords_cons, ih, pr_top]

theorem processRecords_total (rs : List LogRecord) (c : Option Int)
    (a : TrafficAnalyzer) :
    (processRecords rs c a).total_requests = a.total_requests + rs.length := by
  induction rs generalizing a with
  | nil => rfl
  | cons r rs ih => rw [processRecords_cons, ih, pr_total]; simp; omega

theorem processRecords_data (rs : List LogRecord) (c : Option Int)
    (a : TrafficAnalyzer) :
    (processRecords rs c a).total_data = a.total_data + (rs.map (·.size)).sum := by
  induction rs generalizing a with
  | nil => simp [processRecords_nil]
  | cons r rs ih => rw [processRecords_cons, ih, pr_data]; simp; omega

theorem processRecords_unique (rs : List LogRecord) (c : Option Int)
    (a : TrafficAnalyzer) :
    (processRecords rs c a).unique_ips =
      a.unique_ips ∪ (rs.map (·.client_ip)).toFinset := by
  induction rs generalizing a with
  | nil => simp [processRecords_nil]
  | cons r rs ih =>
      rw [processRecords_cons, ih, pr_unique]
      simp [List.toFinset_cons, Finset.insert_union, Finset.union_insert]

theorem processRecords_success (rs : List LogRecord) (c : Option Int)
    (a : TrafficAnalyzer) :
    (processRecords rs c a).success_count =
      a.success_count +
        rs.countP is2xx := by
  induction rs generalizing a with
  | nil => rfl
  | cons r rs ih =>
      rw [processRecords_cons, ih, pr_success, List.countP_cons]
      cases hp : is2xx r <;> simp [hp] <;> omega

theorem processRecords_client (rs : List LogRecord) (c : Option Int)
    (a : TrafficAnalyzer) :
    (processRecords rs c a).client_error_count =
      a.client_error_count +
        rs.countP is4xx := by
  induction rs generalizing a with
  | nil => rfl
  | cons r rs ih =>
      rw [processRecords_cons, ih, pr_client, List.countP_cons]
      cases hp : is4xx r <;> simp [hp] <;> omega

theorem processRecords_server (rs : List LogRecord) (c : Option Int)
    (a : TrafficAnalyzer) :
    (processRecords rs c a).server_error_count =
      a.server_error_count +
        rs.countP is5xx := by
  induction rs generalizing a with
  | nil => rfl
  | cons r rs ih =>
      rw [processRecords_cons, ih, pr_server, List.countP_cons]
      cases hp : is5xx r <;> simp [hp] <;> omega

theorem processRecords_sss (rs : List LogRecord) (c : Option Int)
    (a : TrafficAnalyzer) :
    (processRecords rs c a).success_size_sum =
      a.success_size_sum +
        ((rs.filter is2xx).map (·.size)).sum := by
  induction rs generalizing a with
  | nil => simp [processRecords_nil]
  | cons r rs ih =>
      rw [processRecords_cons, ih, pr_sss, List.filter_cons]
      cases hp : is2xx r <;> simp [hp] <;> omega

theorem processRecords_ip_get (rs : List LogRecord) (c : Option Int)
    (a : TrafficAnalyzer) (k : String) :
    Counter.get (processRecords rs c a).ip_counter k =
      Counter.get a.ip_counter k + rs.countP (fun r => r.client_ip = k) := by
  induction rs generalizing a with
  | nil => rfl
  | cons r rs ih =>
      rw [processRecords_cons, ih, pr_ip, Counter.get_incr, List.countP_cons]
      by_cases h : k = r.client_ip
      · simp [h]; omega
      · simp [h, Ne.symm h]

theorem processRecords_url_get (rs : List LogRecord) (c : Option Int)
    (a : TrafficAnalyzer) (k : String) :
    Counter.get (processRecords rs c a).url_counter k =
      Counter.get a.url_counter k + rs.countP (fun r => r.url = k) := by
  induction rs generalizing a with
  | nil => rfl
  | cons r rs ih =>
      rw [processRecords_cons, ih, pr_url, Counter.get_incr, List.countP_cons]
      by_cases h : k = r.url
      · simp [h]; omega
      · simp [h, Ne.symm h]

theorem processRecords_method_get (rs : List LogRecord) (c : Option Int)
    (a : TrafficAnalyzer) (k : String) :
    Counter.get (processRecords rs c a).method_counter k =
      Counter.get a.method_counter k + rs.countP (fun r => r.method = k) := by
  induction rs generalizing a with
  | nil => rfl
  | cons r rs ih =>
      rw [processRecords_cons, ih, pr_method, Counter.get_incr, List.countP_cons]
      by_cases h : k = r.method
      · simp [h]; omega
      · simp [h, Ne.symm h]

theorem processRecords_method_sum (rs : List LogRecord) (c : Option Int)
    (a : TrafficAnalyzer) :
    ((processRecords rs c a).method_counter.map Prod.snd).sum =
      (a.method_counter.map Prod.snd).sum + rs.length := by
  induction rs generalizing a with
  | nil => rfl
  | cons r rs ih =>
      rw [processRecords_cons, ih, pr_method, Counter.sum_incr]
      simp; omega

theorem processRecords_recent_get (rs : List LogRecord) (c : Option Int)
    (a : TrafficAnalyzer) (k : String) :
    Counter.get (processRecords rs c a).recent_ip_counts k =
      Counter.get a.recent_ip_counts k +
        rs.countP (fun r =>
          decide (truthyOptInt c ∧ c.getD 0 ≤ r.timestamp ∧ k = r.client_ip)) := by
  induction rs generalizing a with
  | nil => rfl
  | cons r rs ih =>
      rw [processRecords_cons, ih, pr_recent_get, List.countP_cons]
      split_ifs <;> simp_all <;> omega

theorem processRecords_hour_get (rs : List LogRecord) (c : Option Int)
    (a : TrafficAnalyzer) (h : Int) :
    Counter.get (processRecords rs c a).requests_per_hour h =
      Counter.get a.requests_per_hour h +
        rs.countP (fun r =>
          decide (truthyOptInt c ∧ c.getD 0 ≤ r.timestamp ∧
            0 ≤ (r.timestamp - c.getD 0).fdiv 3600 ∧
            (r.timestamp - c.getD 0).fdiv 3600 < 24 ∧
            h = (r.timestamp - c.getD 0).fdiv 3600)) := by
  induction rs generalizing a with
  | nil => rfl
  | cons r rs ih =>
      rw [processRecords_cons, ih, pr_hour_get, List.countP_cons]
      split_ifs <;> simp_all <;> omega

/-! ### Driver-level characterizations -/

theorem process_file_eq_aux (lines : List String) (args : Args) (cutoff : Option Int)
    (a : TrafficAnalyzer) :
    lines.foldl
      (fun analyzer line =>
        match parse_log_line line with
        | none => analyzer
        | some parsed =>
            if matches_filters parsed args then
              TrafficAnalyzer.process_record analyzer parsed cutoff
            else analyzer) a
      = processRecords (matchingRecords lines args) cutoff a := by
  induction lines generalizing a with
  | nil => rfl
  | cons l ls ih =>
      simp only [List.foldl_cons, matchingRecords, List.filterMap_cons]
      cases hp : parse_log_line l with
      | none => simpa [matchingRecords] using ih a
      | some p =>
          by_cases hm : matches_filters p args
          · simp only [hm, if_true, List.filter_cons]
            rw [processRecords_cons]
            simpa [matchingRecords] using ih (a.process_record p cutoff)
          · simp only [hm, if_false, List.filter_cons]
            simpa [matchingRecords, hm] using ih a

theorem process_file_eq (lines : List String) (args : Args) (cutoff : Option Int) :
    process_file lines args cutoff =
      processRecords (matchingRecords lines args) cutoff
        (TrafficAnalyzer.init args.top) := by
  simpa [process_file] using
    process_file_eq_aux lines args cutoff (TrafficAnalyzer.init args.top)

theorem find_max_eq_aux (lines : List String) (args : Args) (acc : Option Int) :
    lines.foldl
      (fun max_ts line =>
        match parse_log_line line with
        | some parsed =>
            if matches_filters parsed args then maxUpd max_ts parsed.timestamp
            else max_ts
        | none => max_ts) acc
      = ((matchingRecords lines args).map (·.timestamp)).foldl maxUpd acc := by
  induction lines generalizing acc with
  | nil => rfl
  | cons l ls ih =>
      simp only [List.foldl_cons, matchingRecords, List.filterMap_cons]
      cases hp : parse_log_line l with
      | none => simpa [matchingRecords] using ih acc
      | some p =>
          by_cases hm : matches_filters p args
          · simp only [hm, if_true, List.filter_cons]
            simpa [matchingRecords] using ih (maxUpd acc p.timestamp)
          · simp only [hm, if_false, List.filter_cons]
            simpa [matchingRecords, hm] using ih acc

theorem find_max_eq (lines : List String) (args : Args) :
    find_max_timestamp lines args =
      ((matchingRecords lines args).map (·.timestamp)).foldl maxUpd none := by
  simpa [find_max_timestamp] using find_max_eq_aux lines args none

theorem foldl_maxUpd_mono (ts : List Int) (x m : Int)
    (hm : ts.foldl maxUpd (some x) = some m) : x ≤ m := by
  induction ts generalizing x with
  | nil => simp [List.foldl_nil] at hm; omega
  | cons t ts ih =>
      simp only [List.foldl_cons, maxUpd] at hm
      split_ifs at hm with h
      · exact le_trans (by omega) (ih _ hm)
      · exact ih _ hm

theorem foldl_maxUpd_ub (ts : List Int) (acc : Option Int) (m : Int)
    (hm : ts.foldl maxUpd acc = some m) : ∀ t ∈ ts, t ≤ m := by
  induction ts generalizing acc with
  | nil => simp
  | cons t ts ih =>
      intro t' ht'
      rcases List.mem_cons.mp ht' with rfl | ht'
      · simp only [List.foldl_cons] at hm
        have : ∃ y, maxUpd acc t' = some y ∧ t' ≤ y := by
          cases acc with
          | none => exact ⟨t', rfl, le_refl _⟩
          | some x =>
              simp only [maxUpd]
              split_ifs with h
              · exact ⟨t', rfl, le_refl _⟩
              · exact ⟨x, rfl, by omega⟩
        obtain ⟨y, hy, hty⟩ := this
        rw [hy] at hm
        exact le_trans hty (foldl_maxUpd_mono _ _ _ hm)
      · exact ih _ (by simpa [List.foldl_cons] using hm) t' ht'

theorem find_max_none_of_no_match (lines : List String) (args : Args)
    (h : matchingRecords lines args = []) :
    find_max_timestamp lines args = none := by
  rw [find_max_eq, h]; rfl

theorem find_max_is_ub (lines : List String) (args : Args) (m : Int)
    (h : find_max_timestamp lines args = some m) :
    ∀ r ∈ matchingRecords lines args, r.timestamp ≤ m := by
  rw [find_max_eq] at h
  intro r hr
  exact foldl_maxUpd_ub _ _ _ h r.timestamp (List.mem_map_of_mem _ hr)

/-! ### Permutation invariance machinery -/

theorem foldl_comm_perm {α β : Type _} (f : β → α → β)
    (comm : ∀ b a1 a2, f (f b a1) a2 = f (f b a2) a1)
    {l1 l2 : List α} (h : l1.Perm l2) : ∀ b, l1.foldl f b = l2.foldl f b := by
  induction h with
  | nil => intro b; rfl
  | cons x _ ih => intro b; simp only [List.foldl_cons]; exact ih _
  | swap x y l => intro b; simp only [List.foldl_cons]; rw [comm]
  | trans _ _ ih1 ih2 => intro b; rw [ih1, ih2]

theorem maxUpd_comm (acc : Option Int) (t1 t2 : Int) :
    maxUpd (maxUpd acc t1) t2 = maxUpd (maxUpd acc t2) t1 := by
  cases acc with
  | none =>
      simp only [maxUpd]
      split_ifs <;> simp <;> omega
  | some x =>
      simp only [maxUpd]
      by_cases h1 : t1 > x <;> by_cases h2 : t2 > x <;> simp only [h1, h2, if_pos, if_neg, if_true, if_false] <;>
        split_ifs <;> simp <;> omega

/-! ### First-seen key order and stable descending sort -/


theorem processRecords_method_keys (rs : List LogRecord) (c : Option Int)
    (a : TrafficAnalyzer) :
    (processRecords rs c a).method_counter.map Prod.fst =
      (rs.map (·.method)).foldl addFirstSeen (a.method_counter.map Prod.fst) := by
  induction rs generalizing a with
  | nil => rfl
  | cons r rs ih =>
      rw [processRecords_cons, ih, pr_method]
      simp [List.foldl_cons, addFirstSeen, Counter.keys_incr]

theorem processRecords_ip_keys (rs : List LogRecord) (c : Option Int)
    (a : TrafficAnalyzer) :
    (processRecords rs c a).ip_counter.map Prod.fst =
      (rs.map (·.client_ip)).foldl addFirstSeen (a.ip_counter.map Prod.fst) := by
  induction rs generalizing a with
  | nil => rfl
  | cons r rs ih =>
      rw [processRecords_cons, ih, pr_ip]
      simp [List.foldl_cons, addFirstSeen, Counter.keys_incr]

theorem processRecords_url_keys (rs : List LogRecord) (c : Option Int)
    (a : TrafficAnalyzer) :
    (processRecords rs c a).url_counter.map Prod.fst =
      (rs.map (·.url)).foldl addFirstSeen (a.url_counter.map Prod.fst) := by
  induction rs generalizing a with
  | nil => rfl
  | cons r rs ih =>
      rw [processRecords_cons, ih, pr_url]
      simp [List.foldl_cons, addFirstSeen, Counter.keys_incr]

theorem filter_insertDesc {α : Type} (x : α × Nat) (s : List (α × Nat)) (cnt : Nat) :
    (insertDesc x s).filter (fun p => p.2 = cnt) =
      if x.2 = cnt then x :: s.filter (fun p => p.2 = cnt)
      else s.filter (fun p => p.2 = cnt) := by
  induction s with
  | nil =>
      by_cases hxc : x.2 = cnt <;> simp [insertDesc, List.filter, hxc]
  | cons y ys ih =>
      simp only [insertDesc]
      by_cases hy : x.2 < y.2
      · simp only [if_pos hy, List.filter_cons, ih]
        by_cases hyc : y.2 = cnt <;> by_cases hxc : x.2 = cnt <;>
          simp_all
      · simp only [if_neg hy, List.filter_cons]
        by_cases hxc : x.2 = cnt <;> by_cases hyc : y.2 = cnt <;> simp_all

theorem filter_sortByCountDesc {α : Type} (l : List (α × Nat)) (cnt : Nat) :
    (sortByCountDesc l).filter (fun p => p.2 = cnt) =
      l.filter (fun p => p.2 = cnt) := by
  induction l with
  | nil => rfl
  | cons x xs ih =>
      have hstep : sortByCountDesc (x :: xs) = insertDesc x (sortByCountDesc xs) := rfl
      rw [hstep, filter_insertDesc, ih, List.filter_cons]
      by_cases hxc : x.2 = cnt <;> simp [hxc]

/-! ### Claims -/

/-- C5: the parser returns `none` exactly when the line does not split
into exactly 6 whitespace-separated tokens or when the timestamp, status
or size token is not parseable as an integer; otherwise it returns the
structured record with the method token uppercased.  (It never raises:
the embedding is a total function, the Python `ValueError` being caught
and turned into `None`.) -/
theorem C5_parser_contract (line : String) :
    (parse_log_line line = none ↔
      (pySplit line).length ≠ 6 ∨
      pyInt ((pySplit line).getD 0 "") = none ∨
      pyInt ((pySplit line).getD 4 "") = none ∨
      pyInt ((pySplit line).getD 5 "") = none) ∧
    (∀ rec, parse_log_line line = some rec →
      (pySplit line).length = 6 ∧
      pyInt ((pySplit line).getD 0 "") = some rec.timestamp ∧
      rec.client_ip = (pySplit line).getD 1 "" ∧
      rec.method = pyUpper ((pySplit line).getD 2 "") ∧
      rec.url = (pySplit line).getD 3 "" ∧
      pyInt ((pySplit line).getD 4 "") = some rec.status ∧
      pyInt ((pySplit line).getD 5 "") = some rec.size) := by
  rcases hs : pySplit line with _ | ⟨p0, _ | ⟨p1, _ | ⟨p2, _ | ⟨p3, _ | ⟨p4, _ |
    ⟨p5, _ | ⟨p6, rest⟩⟩⟩⟩⟩⟩⟩ <;>
    simp [parse_log_line, hs]
  rcases h0 : pyInt p0 with _ | ts <;> rcases h4 : pyInt p4 with _ | st <;>
    rcases h5 : pyInt p5 with _ | sz <;> simp [h0, h4, h5]

theorem C5_witness :
    parse_log_line "1000 10.0.0.1 get /a 200 500" =
      some ⟨1000, "10.0.0.1", "GET", "/a", 200, 500⟩ ∧
    ((pySplit "1000 10.0.0.1 get /a 200 500").length = 6 ∧
     pyInt ((pySplit "1000 10.0.0.1 get /a 200 500").getD 0 "") = some 1000 ∧
     "10.0.0.1" = (pySplit "1000 10.0.0.1 get /a 200 500").getD 1 "" ∧
     "GET" = pyUpper ((pySplit "1000 10.0.0.1 get /a 200 500").getD 2 "") ∧
     "/a" = (pySplit "1000 10.0.0.1 get /a 200 500").getD 3 "" ∧
     pyInt ((pySplit "1000 10.0.0.1 get /a 200 500").getD 4 "") = some 200 ∧
     pyInt ((pySplit "1000 10.0.0.1 get /a 200 500").getD 5 "") = some 500) :=
  ⟨by decide, (C5_parser_contract "1000 10.0.0.1 get /a 200 500").2
    ⟨1000, "10.0.0.1", "GET", "/a", 200, 500⟩ (by decide)⟩

/-- C2: the claim is FALSE on the code and the code is the slip: the
filter guards are `if args.start and ...` / `if args.end and ...`, so a
configured bound equal to 0 is treated as absent (falsy) and its check
is skipped.  With `end = 0` configured, the record of line
`1 10.0.0.1 GET /a 200 100` (timestamp 1 > 0) still matches; with
`start = 0` configured, a record with timestamp −1 < 0 still matches. -/
theorem C2_zero_bound_treated_as_absent :
    matches_filters ⟨1, "10.0.0.1", "GET", "/a", 200, 100⟩
      ⟨none, none, none, some 0, 3⟩ = true ∧
    matches_filters ⟨-1, "10.0.0.1", "GET", "/a", 200, 100⟩
      ⟨none, none, some 0, none, 3⟩ = true ∧
    matches_filters ⟨0, "10.0.0.1", "GET", "/a", 200, 100⟩
      ⟨none, none, some 5, none, 3⟩ = false := by decide

/-- C4: the claim is FALSE on the code and the code is the slip: the
recent-window guard is `if cutoff and timestamp >= cutoff`, Python
truthiness, so the defined cutoff 0 (reachable as `max_ts - 86400` when
`max_ts = 86400`) disables the whole window: for the record with
timestamp 1800 the hour index 0 satisfies `0 ≤ 0 < 24`, yet neither
`requests_per_hour[0]` nor `recent_ip_counts` is updated. -/
theorem C4_cutoff_zero_skips_window :
    (0 : Int) ≤ (1800 - 0 : Int).fdiv 3600 ∧ (1800 - 0 : Int).fdiv 3600 < 24 ∧
    Counter.get ((TrafficAnalyzer.init 3).process_record
      ⟨1800, "9.9.9.9", "GET", "/y", 200, 7⟩ (some 0)).requests_per_hour 0 = 0 ∧
    Counter.get ((TrafficAnalyzer.init 3).process_record
      ⟨1800, "9.9.9.9", "GET", "/y", 200, 7⟩ (some 0)).recent_ip_counts "9.9.9.9"
      = 0 ∧
    Counter.get ((TrafficAnalyzer.init 3).process_record
      ⟨1800, "9.9.9.9", "GET", "/y", 200, 7⟩ (some 1000)).requests_per_hour 0
      = 1 := by decide

theorem countP_buckets (rs : List LogRecord) :
    rs.countP is2xx + rs.countP is4xx + rs.countP is5xx =
      rs.countP isBucketed := by
  induction rs with
  | nil => rfl
  | cons r rs ih =>
      simp only [List.countP_cons]
      cases h2 : is2xx r <;> cases h4 : is4xx r <;> cases h5 : is5xx r <;>
        simp only [isBucketed, h2, h4, h5, Bool.or_self, Bool.or_true,
          Bool.true_or, Bool.or_false, Bool.false_or, if_true, if_false] <;>
        simp_all [is2xx, is4xx, is5xx] <;> omega

/-- C6: after any sequence of `process_record` calls on a fresh
aggregator, `total_requests` equals the sum of the `method_counter`
values, and `success_count + client_error_count + server_error_count ≤
total_requests`, with equality exactly when every processed record's
status lies in 2xx, 4xx or 5xx. -/
theorem C6_counter_invariants (records : List LogRecord) (cutoff : Option Int)
    (top : Int) :
    (processRecords records cutoff (TrafficAnalyzer.init top)).total_requests =
      ((processRecords records cutoff
        (TrafficAnalyzer.init top)).method_counter.map Prod.snd).sum ∧
    (processRecords records cutoff (TrafficAnalyzer.init top)).success_count +
      (processRecords records cutoff
        (TrafficAnalyzer.init top)).client_error_count +
      (processRecords records cutoff
        (TrafficAnalyzer.init top)).server_error_count ≤
      (processRecords records cutoff (TrafficAnalyzer.init top)).total_requests ∧
    ((processRecords records cutoff (TrafficAnalyzer.init top)).success_count +
      (processRecords records cutoff
        (TrafficAnalyzer.init top)).client_error_count +
      (processRecords records cutoff
        (TrafficAnalyzer.init top)).server_error_count =
      (processRecords records cutoff (TrafficAnalyzer.init top)).total_requests ↔
      ∀ r ∈ records, (200 ≤ r.status ∧ r.status < 300) ∨
        (400 ≤ r.status ∧ r.status < 500) ∨ (500 ≤ r.status ∧ r.status < 600)) := by
  rw [processRecords_total, processRecords_method_sum, processRecords_success,
    processRecords_client, processRecords_server]
  simp only [TrafficAnalyzer.init]
  refine ⟨rfl, ?_, ?_⟩
  · have hcb := countP_buckets records
    have hle := List.countP_le_length isBucketed (l := records)
    omega
  · rw [Nat.zero_add, Nat.zero_add, Nat.zero_add, Nat.zero_add, countP_buckets]
    rw [List.countP_eq_length]
    constructor
    · intro hall r hr
      have := hall r hr
      simp [isBucketed, is2xx, is4xx, is5xx] at this
      tauto
    · intro hall r hr
      have := hall r hr
      simp [isBucketed, is2xx, is4xx, is5xx]
      tauto

/-- C7: `human_readable_bytes` scales by 1024 through B/KB/MB/GB/TB,
renders every value with two decimal places (`formatFixedFrac _ _ 2`),
and TB is terminal: every value ≥ 1024⁴ is rendered in TB with no
further division; in particular 0 ↦ "0.00 B", 1024 ↦ "1.00 KB",
1536 ↦ "1.50 KB". -/
theorem C7_human_readable_bytes :
    human_readable_bytes 0 = "0.00 B" ∧
    human_readable_bytes 1024 = "1.00 KB" ∧
    human_readable_bytes 1536 = "1.50 KB" ∧
    (∀ n : Int, n < 1024 →
      human_readable_bytes n = formatFixedFrac n 1 2 ++ " B") ∧
    (∀ n : Int, 1024 ≤ n → n < 1024 ^ 2 →
      human_readable_bytes n = formatFixedFrac n 1024 2 ++ " KB") ∧
    (∀ n : Int, 1024 ^ 2 ≤ n → n < 1024 ^ 3 →
      human_readable_bytes n = formatFixedFrac n (1024 ^ 2) 2 ++ " MB") ∧
    (∀ n : Int, 1024 ^ 3 ≤ n → n < 1024 ^ 4 →
      human_readable_bytes n = formatFixedFrac n (1024 ^ 3) 2 ++ " GB") ∧
    (∀ n : Int, 1024 ^ 4 ≤ n →
      human_readable_bytes n = formatFixedFrac n (1024 ^ 4) 2 ++ " TB") := by
  refine ⟨by decide, by decide, by decide, ?_, ?_, ?_, ?_, ?_⟩
  · intro n h
    simp [human_readable_bytes, human_readable_bytes_aux]
    rw [if_pos h, String.append_assoc]; rfl
  · intro n hlo hhi
    norm_num at hhi
    simp [human_readable_bytes, human_readable_bytes_aux]
    rw [if_neg (by omega : ¬(n < 1024)), if_pos hhi, String.append_assoc]; rfl
  · intro n hlo hhi
    norm_num at hlo hhi
    simp [human_readable_bytes, human_readable_bytes_aux]
    rw [if_neg (by omega : ¬(n < 1024)),
      if_neg (by omega : ¬(n < 1048576)), if_pos hhi, String.append_assoc]
    rfl
  · intro n hlo hhi
    norm_num at hlo hhi
    simp [human_readable_bytes, human_readable_bytes_aux]
    rw [if_neg (by omega : ¬(n < 1024)),
      if_neg (by omega : ¬(n < 1048576)),
      if_neg (by omega : ¬(n < 1073741824)), if_pos hhi, String.append_assoc]
    rfl
  · intro n hlo
    norm_num at hlo
    simp [human_readable_bytes, human_readable_bytes_aux]
    rw [if_neg (by omega : ¬(n < 1024)),
      if_neg (by omega : ¬(n < 1048576)),
      if_neg (by omega : ¬(n < 1073741824)),
      if_neg (by omega : ¬(n < 1099511627776)), String.append_assoc]
    rfl

theorem C7_witness :
    (-42 : Int) < 1024 ∧
    human_readable_bytes (-42) = formatFixedFrac (-42) 1 2 ++ " B" := by
  refine ⟨by decide, C7_human_readable_bytes.2.2.2.1 (-42) (by decide)⟩

/-- C3 counterexample: with the truthy cutoff 5 and the record at
timestamp 86405 the hour index is exactly 24, so the claim's
"neither `requests_per_hour` nor `recent_ip_counts` is incremented" is
false: `recent_ip_counts` IS incremented (it sits outside the
`0 <= hour_index < 24` guard in the source). -/
theorem C3_cex :
    ((86405 : Int) - 5).fdiv 3600 = 24 ∧
    Counter.get ((TrafficAnalyzer.init 3).process_record
      ⟨86405, "1.2.3.4", "GET", "/x", 200, 10⟩ (some 5)).recent_ip_counts
      "1.2.3.4" = 1 ∧
    Counter.get ((TrafficAnalyzer.init 3).process_record
      ⟨86405, "1.2.3.4", "GET", "/x", 200, 10⟩ (some 5)).requests_per_hour 24
      = 0 := by decide

/-- C3 amended: for a truthy (nonzero) cutoff and a record with
`timestamp ≥ cutoff` whose hour index is ≥ 24, no `requests_per_hour`
bucket changes, but `recent_ip_counts` for the record's IP is
incremented, while all non-windowed counters still count the record. -/
theorem C3_amended (a : TrafficAnalyzer) (r : LogRecord) (cutoff : Int)
    (hc : cutoff ≠ 0) (hts : cutoff ≤ r.timestamp)
    (hhi : 24 ≤ (r.timestamp - cutoff).fdiv 3600) :
    (∀ h : Int,
      Counter.get (a.process_record r (some cutoff)).requests_per_hour h =
        Counter.get a.requests_per_hour h) ∧
    Counter.get (a.process_record r (some cutoff)).recent_ip_counts r.client_ip =
      Counter.get a.recent_ip_counts r.client_ip + 1 ∧
    (a.process_record r (some cutoff)).total_requests = a.total_requests + 1 ∧
    (a.process_record r (some cutoff)).total_data = a.total_data + r.size ∧
    (a.process_record r (some cutoff)).unique_ips =
      insert r.client_ip a.unique_ips ∧
    Counter.get (a.process_record r (some cutoff)).ip_counter r.client_ip =
      Counter.get a.ip_counter r.client_ip + 1 ∧
    Counter.get (a.process_record r (some cutoff)).url_counter r.url =
      Counter.get a.url_counter r.url + 1 ∧
    Counter.get (a.process_record r (some cutoff)).method_counter r.method =
      Counter.get a.method_counter r.method + 1 := by
  refine ⟨?_, ?_, pr_total a r (some cutoff), pr_data a r (some cutoff),
    pr_unique a r (some cutoff), ?_, ?_, ?_⟩
  · intro h
    rw [pr_hour_get]
    have hlt : ¬((r.timestamp - cutoff).fdiv 3600 < 24) := by omega
    simp [hlt]
  · rw [pr_recent_get]
    have ht : truthyOptInt (some cutoff) = true := by simp [truthyOptInt, hc]
    simp [ht, hts]
  · rw [pr_ip, Counter.get_incr]; simp
  · rw [pr_url, Counter.get_incr]; simp
  · rw [pr_method, Counter.get_incr]; simp

theorem C3_amended_witness :
    ((5 : Int) ≠ 0 ∧ (5 : Int) ≤ 86405 ∧
      (24 : Int) ≤ ((86405 : Int) - 5).fdiv 3600) ∧
    ((∀ h : Int,
        Counter.get ((TrafficAnalyzer.init 3).process_record
          ⟨86405, "1.2.3.4", "GET", "/x", 200, 10⟩ (some 5)).requests_per_hour h =
          Counter.get (TrafficAnalyzer.init 3).requests_per_hour h) ∧
      Counter.get ((TrafficAnalyzer.init 3).process_record
        ⟨86405, "1.2.3.4", "GET", "/x", 200, 10⟩ (some 5)).recent_ip_counts
        "1.2.3.4" =
        Counter.get (TrafficAnalyzer.init 3).recent_ip_counts "1.2.3.4" + 1 ∧
      ((TrafficAnalyzer.init 3).process_record
        ⟨86405, "1.2.3.4", "GET", "/x", 200, 10⟩ (some 5)).total_requests =
        (TrafficAnalyzer.init 3).total_requests + 1 ∧
      ((TrafficAnalyzer.init 3).process_record
        ⟨86405, "1.2.3.4", "GET", "/x", 200, 10⟩ (some 5)).total_data =
        (TrafficAnalyzer.init 3).total_data + 10 ∧
      ((TrafficAnalyzer.init 3).process_record
        ⟨86405, "1.2.3.4", "GET", "/x", 200, 10⟩ (some 5)).unique_ips =
        insert "1.2.3.4" (TrafficAnalyzer.init 3).unique_ips ∧
      Counter.get ((TrafficAnalyzer.init 3).process_record
        ⟨86405, "1.2.3.4", "GET", "/x", 200, 10⟩ (some 5)).ip_counter "1.2.3.4" =
        Counter.get (TrafficAnalyzer.init 3).ip_counter "1.2.3.4" + 1 ∧
      Counter.get ((TrafficAnalyzer.init 3).process_record
        ⟨86405, "1.2.3.4", "GET", "/x", 200, 10⟩ (some 5)).url_counter "/x" =
        Counter.get (TrafficAnalyzer.init 3).url_counter "/x" + 1 ∧
      Counter.get ((TrafficAnalyzer.init 3).process_record
        ⟨86405, "1.2.3.4", "GET", "/x", 200, 10⟩ (some 5)).method_counter "GET" =
        Counter.get (TrafficAnalyzer.init 3).method_counter "GET" + 1) :=
  ⟨⟨by decide, by decide, by decide⟩,
    C3_amended (TrafficAnalyzer.init 3) ⟨86405, "1.2.3.4", "GET", "/x", 200, 10⟩ 5
      (by decide) (by decide) (by decide)⟩

/-- C1 counterexample: for the single-line scenario log the derived
cutoff is 1000 − 86400, and the record's hour index is exactly 24, not
< 24: the record IS dropped from the hourly histogram (bucket 0 — and
every bucket — shows 0, not 1), while the rest of the claimed report
values hold (total 1, unique IPs 1, recent unique IPs 1). -/
theorem C1_cex :
    find_max_timestamp ["1000 10.0.0.1 GET /a 200 500"]
      ⟨none, none, none, none, 3⟩ = some 1000 ∧
    ((1000 : Int) - (1000 - 86400)).fdiv 3600 = 24 ∧
    Counter.get (process_file ["1000 10.0.0.1 GET /a 200 500"]
      ⟨none, none, none, none, 3⟩ (some (1000 - 86400))).requests_per_hour 0
      = 0 ∧
    (process_file ["1000 10.0.0.1 GET /a 200 500"]
      ⟨none, none, none, none, 3⟩ (some (1000 - 86400))).total_requests = 1 ∧
    (process_file ["1000 10.0.0.1 GET /a 200 500"]
      ⟨none, none, none, none, 3⟩ (some (1000 - 86400))).unique_ips.card = 1 ∧
    Counter.numKeys (process_file ["1000 10.0.0.1 GET /a 200 500"]
      ⟨none, none, none, none, 3⟩ (some (1000 - 86400))).recent_ip_counts = 1 ∧
    (∀ h ∈ List.range 24,
      Counter.get (process_file ["1000 10.0.0.1 GET /a 200 500"]
        ⟨none, none, none, none, 3⟩ (some (1000 - 86400))).requests_per_hour
        (h : Int) = 0) := by decide

/-- C1 amended: with the cutoff derived internally as
`max_ts − 86400` over the same matching record set, every matching
record with `timestamp ≥ cutoff` has hour index ≤ 24, and the index is
< 24 exactly when `timestamp < max_ts`; a record at the maximum
timestamp itself (such as the scenario's single record) lands on index
exactly 24 and is dropped from the histogram. -/
theorem C1_amended (lines : List String) (args : Args) (max_ts : Int)
    (hmax : find_max_timestamp lines args = some max_ts) :
    ∀ r ∈ matchingRecords lines args, max_ts - 86400 ≤ r.timestamp →
      ((r.timestamp - (max_ts - 86400)).fdiv 3600 ≤ 24 ∧
       ((r.timestamp - (max_ts - 86400)).fdiv 3600 < 24 ↔
         r.timestamp < max_ts)) := by
  intro r hr hge
  have hub := find_max_is_ub lines args max_ts hmax r hr
  have he : (r.timestamp - (max_ts - 86400)).fdiv 3600 =
      (r.timestamp - (max_ts - 86400)) / 3600 :=
    Int.fdiv_eq_ediv _ (by norm_num)
  rw [he]
  omega

theorem C1_amended_witness :
    find_max_timestamp ["1000 10.0.0.1 GET /a 200 500"]
      ⟨none, none, none, none, 3⟩ = some 1000 ∧
    (∀ r ∈ matchingRecords ["1000 10.0.0.1 GET /a 200 500"]
        ⟨none, none, none, none, 3⟩,
      (1000 : Int) - 86400 ≤ r.timestamp →
      ((r.timestamp - (1000 - 86400)).fdiv 3600 ≤ 24 ∧
       ((r.timestamp - (1000 - 86400)).fdiv 3600 < 24 ↔ r.timestamp < 1000))) :=
  ⟨by decide, C1_amended ["1000 10.0.0.1 GET /a 200 500"]
    ⟨none, none, none, none, 3⟩ 1000 (by decide)⟩


theorem find_max_as_foldl (lines : List String) (args : Args) :
    find_max_timestamp lines args = lines.foldl (findMaxStep args) none := rfl

theorem findMaxStep_comm (args : Args) (acc : Option Int) (l1 l2 : String) :
    findMaxStep args (findMaxStep args acc l1) l2 =
      findMaxStep args (findMaxStep args acc l2) l1 := by
  unfold findMaxStep
  cases parse_log_line l1 <;> cases parse_log_line l2 <;> simp <;>
    split_ifs <;> simp [maxUpd_comm]


/-- C8: permuting the input lines leaves the scan phase's maximum
matching timestamp, hence the derived cutoff, unchanged, and produces
observationally equal final aggregator states for any cutoff. -/
theorem C8_order_independence (lines1 lines2 : List String) (args : Args)
    (hperm : lines1.Perm lines2) :
    find_max_timestamp lines1 args = find_max_timestamp lines2 args ∧
    (find_max_timestamp lines1 args).map (fun m => m - 86400) =
      (find_max_timestamp lines2 args).map (fun m => m - 86400) ∧
    ∀ cutoff : Option Int,
      AggObsEq (process_file lines1 args cutoff)
        (process_file lines2 args cutoff) := by
  have hmax : find_max_timestamp lines1 args = find_max_timestamp lines2 args := by
    rw [find_max_as_foldl, find_max_as_foldl]
    exact foldl_comm_perm _ (findMaxStep_comm args) hperm none
  have hrec : (matchingRecords lines1 args).Perm (matchingRecords lines2 args) :=
    (hperm.filterMap parse_log_line).filter _
  refine ⟨hmax, by rw [hmax], ?_⟩
  intro cutoff
  rw [process_file_eq, process_file_eq]
  exact ⟨by rw [processRecords_top, processRecords_top],
    by rw [processRecords_total, processRecords_total, hrec.length_eq],
    by rw [processRecords_data, processRecords_data,
      (hrec.map (·.size)).sum_eq],
    by rw [processRecords_success, processRecords_success,
      hrec.countP_eq is2xx],
    by rw [processRecords_client, processRecords_client,
      hrec.countP_eq is4xx],
    by rw [processRecords_server, processRecords_server,
      hrec.countP_eq is5xx],
    by rw [processRecords_sss, processRecords_sss,
      (((hrec.filter is2xx).map (·.size))).sum_eq],
    by rw [processRecords_unique, processRecords_unique,
      List.toFinset_eq_of_perm _ _ (hrec.map (·.client_ip))],
    fun k => by rw [processRecords_ip_get, processRecords_ip_get,
      hrec.countP_eq _],
    fun k => by rw [processRecords_url_get, processRecords_url_get,
      hrec.countP_eq _],
    fun k => by rw [processRecords_method_get, processRecords_method_get,
      hrec.countP_eq _],
    fun k => by rw [processRecords_recent_get, processRecords_recent_get,
      hrec.countP_eq _],
    fun h => by rw [processRecords_hour_get, processRecords_hour_get,
      hrec.countP_eq _]⟩

theorem C8_witness :
    (["2000 2.2.2.2 POST /b 404 6", "1000 1.1.1.1 GET /a 200 5"].Perm
      ["1000 1.1.1.1 GET /a 200 5", "2000 2.2.2.2 POST /b 404 6"]) ∧
    (find_max_timestamp ["2000 2.2.2.2 POST /b 404 6", "1000 1.1.1.1 GET /a 200 5"]
        ⟨none, none, none, none, 3⟩ =
      find_max_timestamp ["1000 1.1.1.1 GET /a 200 5", "2000 2.2.2.2 POST /b 404 6"]
        ⟨none, none, none, none, 3⟩ ∧
     (find_max_timestamp ["2000 2.2.2.2 POST /b 404 6", "1000 1.1.1.1 GET /a 200 5"]
        ⟨none, none, none, none, 3⟩).map (fun m => m - 86400) =
      (find_max_timestamp ["1000 1.1.1.1 GET /a 200 5", "2000 2.2.2.2 POST /b 404 6"]
        ⟨none, none, none, none, 3⟩).map (fun m => m - 86400) ∧
     ∀ cutoff : Option Int,
       AggObsEq
         (process_file ["2000 2.2.2.2 POST /b 404 6", "1000 1.1.1.1 GET /a 200 5"]
           ⟨none, none, none, none, 3⟩ cutoff)
         (process_file ["1000 1.1.1.1 GET /a 200 5", "2000 2.2.2.2 POST /b 404 6"]
           ⟨none, none, none, none, 3⟩ cutoff)) :=
  ⟨List.Perm.swap _ _ _,
    C8_order_independence _ _ ⟨none, none, none, none, 3⟩ (List.Perm.swap _ _ _)⟩

/-- C10: tie determinism.  The stable descending sort used for the
request-distribution section keeps equal-count entries in counter
(insertion) order — filtering the sorted counter to any fixed count
yields exactly the counter's own sublist — the top-N lists are prefixes
of the same stable order, and each counter's key list is the
first-occurrence order of the corresponding record field; the whole
pipeline is a pure function of the input lines, so two runs over the
same input produce identical report text. -/
theorem C10_tie_break_first_seen (records : List LogRecord) (cutoff : Option Int)
    (top : Int) (cnt : Nat) :
    ((sortByCountDesc (processRecords records cutoff
        (TrafficAnalyzer.init top)).method_counter).filter (fun p => p.2 = cnt) =
      (processRecords records cutoff
        (TrafficAnalyzer.init top)).method_counter.filter (fun p => p.2 = cnt)) ∧
    ((sortByCountDesc (processRecords records cutoff
        (TrafficAnalyzer.init top)).ip_counter).filter (fun p => p.2 = cnt) =
      (processRecords records cutoff
        (TrafficAnalyzer.init top)).ip_counter.filter (fun p => p.2 = cnt)) ∧
    ((sortByCountDesc (processRecords records cutoff
        (TrafficAnalyzer.init top)).url_counter).filter (fun p => p.2 = cnt) =
      (processRecords records cutoff
        (TrafficAnalyzer.init top)).url_counter.filter (fun p => p.2 = cnt)) ∧
    (∀ n, most_common (processRecords records cutoff
        (TrafficAnalyzer.init top)).ip_counter n =
      (sortByCountDesc (processRecords records cutoff
        (TrafficAnalyzer.init top)).ip_counter).take n) ∧
    ((processRecords records cutoff
        (TrafficAnalyzer.init top)).method_counter.map Prod.fst =
      (records.map (·.method)).foldl addFirstSeen []) ∧
    ((processRecords records cutoff
        (TrafficAnalyzer.init top)).ip_counter.map Prod.fst =
      (records.map (·.client_ip)).foldl addFirstSeen []) ∧
    ((processRecords records cutoff
        (TrafficAnalyzer.init top)).url_counter.map Prod.fst =
      (records.map (·.url)).foldl addFirstSeen []) := by
  refine ⟨filter_sortByCountDesc _ cnt, filter_sortByCountDesc _ cnt,
    filter_sortByCountDesc _ cnt, fun n => rfl, ?_, ?_, ?_⟩
  · simpa using processRecords_method_keys records cutoff (TrafficAnalyzer.init top)
  · simpa using processRecords_ip_keys records cutoff (TrafficAnalyzer.init top)
  · simpa using processRecords_url_keys records cutoff (TrafficAnalyzer.init top)

/-- C9: when zero records match the filters, the scan phase finds no
maximum, the driver skips the aggregate phase, and the report is
produced from a fresh empty aggregator with cutoff `none`, exiting with
status 0; that report shows all zero counters, "(no data)" placeholders
for the distribution and both top lists, zero recent unique IPs and the
empty hourly list `[]`. -/
theorem C9_no_match_short_circuit (lines : List String) (args : Args)
    (h : matchingRecords lines args = []) :
    run lines args =
      (generate_report (TrafficAnalyzer.init args.top) args none, 0) ∧
    generate_report (TrafficAnalyzer.init args.top) args none =
      ["====== TRAFFIC ANALYSIS REPORT ======\n",
       "Filter settings:",
       timeRangeLine args, methodEchoLine args, statusEchoLine args, "",
       "Basic statistics:",
       "Total requests: 0",
       "Unique IPs: 0",
       "Total data transferred: 0 (0.00 B)",
       "",
       "Request distribution:",
       "(no data)",
       "",
       "Performance metrics:",
       "- Successful requests (2xx): 0",
       "- Client errors (4xx): 0",
       "- Server errors (5xx): 0",
       "- Average response size (2xx): 0.00 bytes",
       "",
       "Top " ++ toString args.top ++ " active IPs:",
       "(no data)",
       "",
       "Top 5 requested URLs:",
       "(no data)",
       "",
       "Recent activity (last 24h):",
       "- Unique IPs: 0",
       "- Requests per hour (last 24h): []"] := by
  constructor
  · simp [run, find_max_none_of_no_match lines args h]
  · have h1 : human_readable_bytes 0 = "0.00 B" := by decide
    have h2 : formatFixedFrac 0 1 2 = "0.00" := by decide
    simp only [generate_report, TrafficAnalyzer.init, most_common, sortByCountDesc,
      List.foldr_nil, List.take_nil, Finset.card_empty, h1, h2]
    rfl

theorem C9_witness :
    matchingRecords ["1000 10.0.0.1 GET /a 200 500"]
      ⟨some "POST", none, none, none, 3⟩ = [] ∧
    run ["1000 10.0.0.1 GET /a 200 500"] ⟨some "POST", none, none, none, 3⟩ =
      (generate_report (TrafficAnalyzer.init 3)
        ⟨some "POST", none, none, none, 3⟩ none, 0) :=
  ⟨by decide,
    (C9_no_match_short_circuit ["1000 10.0.0.1 GET /a 200 500"]
      ⟨some "POST", none, none, none, 3⟩ (by decide)).1⟩

theorem C6_witness :
    (processRecords [⟨1, "a", "GET", "/a", 200, 5⟩, ⟨2, "b", "FOO", "/b", 700, 6⟩]
      none (TrafficAnalyzer.init 3)).total_requests =
      ((processRecords [⟨1, "a", "GET", "/a", 200, 5⟩, ⟨2, "b", "FOO", "/b", 700, 6⟩]
        none (TrafficAnalyzer.init 3)).method_counter.map Prod.snd).sum ∧
    (processRecords [⟨1, "a", "GET", "/a", 200, 5⟩, ⟨2, "b", "FOO", "/b", 700, 6⟩]
      none (TrafficAnalyzer.init 3)).success_count +
      (processRecords [⟨1, "a", "GET", "/a", 200, 5⟩, ⟨2, "b", "FOO", "/b", 700, 6⟩]
        none (TrafficAnalyzer.init 3)).client_error_count +
      (processRecords [⟨1, "a", "GET", "/a", 200, 5⟩, ⟨2, "b", "FOO", "/b", 700, 6⟩]
        none (TrafficAnalyzer.init 3)).server_error_count ≤
      (processRecords [⟨1, "a", "GET", "/a", 200, 5⟩, ⟨2, "b", "FOO", "/b", 700, 6⟩]
        none (TrafficAnalyzer.init 3)).total_requests ∧
    ((processRecords [⟨1, "a", "GET", "/a", 200, 5⟩, ⟨2, "b", "FOO", "/b", 700, 6⟩]
      none (TrafficAnalyzer.init 3)).success_count +
      (processRecords [⟨1, "a", "GET", "/a", 200, 5⟩, ⟨2, "b", "FOO", "/b", 700, 6⟩]
        none (TrafficAnalyzer.init 3)).client_error_count +
      (processRecords [⟨1, "a", "GET", "/a", 200, 5⟩, ⟨2, "b", "FOO", "/b", 700, 6⟩]
        none (TrafficAnalyzer.init 3)).server_error_count =
      (processRecords [⟨1, "a", "GET", "/a", 200, 5⟩, ⟨2, "b", "FOO", "/b", 700, 6⟩]
        none (TrafficAnalyzer.init 3)).total_requests ↔
      ∀ r ∈ [(⟨1, "a", "GET", "/a", 200, 5⟩ : LogRecord),
             ⟨2, "b", "FOO", "/b", 700, 6⟩],
        (200 ≤ r.status ∧ r.status < 300) ∨ (400 ≤ r.status ∧ r.status < 500) ∨
          (500 ≤ r.status ∧ r.status < 600)) :=
  C6_counter_invariants
    [⟨1, "a", "GET", "/a", 200, 5⟩, ⟨2, "b", "FOO", "/b", 700, 6⟩] none 3

theorem C10_witness :
    ((sortByCountDesc (processRecords [⟨1, "a", "GET", "/a", 200, 5⟩] none
        (TrafficAnalyzer.init 3)).method_counter).filter (fun p => p.2 = 1) =
      (processRecords [⟨1, "a", "GET", "/a", 200, 5⟩] none
        (TrafficAnalyzer.init 3)).method_counter.filter (fun p => p.2 = 1)) ∧
    ((sortByCountDesc (processRecords [⟨1, "a", "GET", "/a", 200, 5⟩] none
        (TrafficAnalyzer.init 3)).ip_counter).filter (fun p => p.2 = 1) =
      (processRecords [⟨1, "a", "GET", "/a", 200, 5⟩] none
        (TrafficAnalyzer.init 3)).ip_counter.filter (fun p => p.2 = 1)) ∧
    ((sortByCountDesc (processRecords [⟨1, "a", "GET", "/a", 200, 5⟩] none
        (TrafficAnalyzer.init 3)).url_counter).filter (fun p => p.2 = 1) =
      (processRecords [⟨1, "a", "GET", "/a", 200, 5⟩] none
        (TrafficAnalyzer.init 3)).url_counter.filter (fun p => p.2 = 1)) ∧
    (∀ n, most_common (processRecords [⟨1, "a", "GET", "/a", 200, 5⟩] none
        (TrafficAnalyzer.init 3)).ip_counter n =
      (sortByCountDesc (processRecords [⟨1, "a", "GET", "/a", 200, 5⟩] none
        (TrafficAnalyzer.init 3)).ip_counter).take n) ∧
    ((processRecords [⟨1, "a", "GET", "/a", 200, 5⟩] none
        (TrafficAnalyzer.init 3)).method_counter.map Prod.fst =
      ([(⟨1, "a", "GET", "/a", 200, 5⟩ : LogRecord)].map
        (·.method)).foldl addFirstSeen []) ∧
    ((processRecords [⟨1, "a", "GET", "/a", 200, 5⟩] none
        (TrafficAnalyzer.init 3)).ip_counter.map Prod.fst =
      ([(⟨1, "a", "GET", "/a", 200, 5⟩ : LogRecord)].map
        (·.client_ip)).foldl addFirstSeen []) ∧
    ((processRecords [⟨1, "a", "GET", "/a", 200, 5⟩] none
        (TrafficAnalyzer.init 3)).url_counter.map Prod.fst =
      ([(⟨1, "a", "GET", "/a", 200, 5⟩ : LogRecord)].map
        (·.url)).foldl addFirstSeen []) :=
  C10_tie_break_first_seen [⟨1, "a", "GET", "/a", 200, 5⟩] none 3 1
